import Mathlib

/-!
Verification development for the ProxyAPINode repository (src/tts.js, src/stt.js).

The JavaScript sources are shallowly embedded: JS strings are Lean `String`
(whose `data` is the list of Unicode scalar values), the event-loop effects
(network downloads, file-system checks, subprocess exits) are passed in as
explicit oracles, and the process-wide mutable state of stt.js together with
the provisioning counters is threaded as an explicit `ProcState` record.
A promise that is left forever un-settled (the async-executor pattern in
synthesizeWithPiper swallows rejections) is modelled by the `pending`
constructor of `Settle`.
-/

namespace ProxyAPINode

/-! JavaScript string primitives.

Here `jsWhitespace` is the character set removed by `String.prototype.trim`
(ECMA-262 WhiteSpace plus LineTerminator: TAB, LF, VT, FF, CR, SP, NEL,
NBSP, OGHAM SPACE, the Zs range U+2000..U+200A, LS, PS, NNBSP, MMSP,
IDEOGRAPHIC SPACE, ZWNBSP). -/

def jsWhitespace (c : Char) : Bool :=
  let n := c.toNat
  decide (n = 0x09) || decide (n = 0x0A) || decide (n = 0x0B) || decide (n = 0x0C) ||
  decide (n = 0x0D) || decide (n = 0x20) || decide (n = 0x85) || decide (n = 0xA0) ||
  decide (n = 0x1680) || (decide (0x2000 ≤ n) && decide (n ≤ 0x200A)) ||
  decide (n = 0x2028) || decide (n = 0x2029) || decide (n = 0x202F) ||
  decide (n = 0x205F) || decide (n = 0x3000) || decide (n = 0xFEFF)

/-- List-level body of `String.prototype.trim`: drop whitespace from both ends. -/
def jsTrimList (l : List Char) : List Char :=
  ((l.dropWhile jsWhitespace).reverse.dropWhile jsWhitespace).reverse

/-- JS `s.trim()`. -/
def jsTrim (s : String) : String :=
  ⟨jsTrimList s.data⟩

/-- JS `s.split(sep)` for a single-character separator, on the scalar list.
`"".split(c)` is `[""]` and separators at the ends produce empty segments,
exactly as in JavaScript. -/
def splitOnChar (sep : Char) : List Char → List (List Char)
  | [] => [[]]
  | c :: rest =>
    let r := splitOnChar sep rest
    if c = sep then [] :: r
    else
      match r with
      | [] => [[c]]
      | h :: t => (c :: h) :: t

/-- JS `s.toLowerCase()` restricted to the ASCII mapping, which is all the
source ever feeds it (language codes such as `en_US`). -/
def jsToLower (s : String) : String :=
  ⟨s.data.map Char.toLower⟩

/-! tts.js, `stripEmojis`.

The source removes every character matched by the regular expression
`[\p{Emoji_Presentation}\p{Emoji}‍]+` (with the `u` flag) and then
calls `.trim()`.  Since `Emoji_Presentation` is a subset of the binary
`Emoji` property, the character class is the `Emoji` property together
with U+200D (zero-width joiner).  `emojiRanges` transcribes the
`Emoji=Yes` ranges of the Unicode emoji-data table that the regex engine
consults; note that it contains `#`, `*` and the ASCII digits `0`-`9`. -/

def emojiRanges : List (Nat × Nat) :=
  [(0x23, 0x23), (0x2A, 0x2A), (0x30, 0x39), (0xA9, 0xA9), (0xAE, 0xAE),
   (0x203C, 0x203C), (0x2049, 0x2049), (0x2122, 0x2122), (0x2139, 0x2139),
   (0x2194, 0x2199), (0x21A9, 0x21AA), (0x231A, 0x231B), (0x2328, 0x2328),
   (0x23CF, 0x23CF), (0x23E9, 0x23F3), (0x23F8, 0x23FA), (0x24C2, 0x24C2),
   (0x25AA, 0x25AB), (0x25B6, 0x25B6), (0x25C0, 0x25C0), (0x25FB, 0x25FE),
   (0x2600, 0x2604), (0x260E, 0x260E), (0x2611, 0x2611), (0x2614, 0x2615),
   (0x2618, 0x2618), (0x261D, 0x261D), (0x2620, 0x2620), (0x2622, 0x2623),
   (0x2626, 0x2626), (0x262A, 0x262A), (0x262E, 0x262F), (0x2638, 0x263A),
   (0x2640, 0x2640), (0x2642, 0x2642), (0x2648, 0x2653), (0x265F, 0x2660),
   (0x2663, 0x2663), (0x2665, 0x2666), (0x2668, 0x2668), (0x267B, 0x267B),
   (0x267E, 0x267F), (0x2692, 0x2697), (0x2699, 0x2699), (0x269B, 0x269C),
   (0x26A0, 0x26A1), (0x26A7, 0x26A7), (0x26AA, 0x26AB), (0x26B0, 0x26B1),
   (0x26BD, 0x26BE), (0x26C4, 0x26C5), (0x26C8, 0x26C8), (0x26CE, 0x26CF),
   (0x26D1, 0x26D1), (0x26D3, 0x26D4), (0x26E9, 0x26EA), (0x26F0, 0x26F5),
   (0x26F7, 0x26FA), (0x26FD, 0x26FD), (0x2702, 0x2702), (0x2705, 0x2705),
   (0x2708, 0x270D), (0x270F, 0x270F), (0x2712, 0x2712), (0x2714, 0x2714),
   (0x2716, 0x2716), (0x271D, 0x271D), (0x2721, 0x2721), (0x2728, 0x2728),
   (0x2733, 0x2734), (0x2744, 0x2744), (0x2747, 0x2747), (0x274C, 0x274C),
   (0x274E, 0x274E), (0x2753, 0x2755), (0x2757, 0x2757), (0x2763, 0x2764),
   (0x2795, 0x2797), (0x27A1, 0x27A1), (0x27B0, 0x27B0), (0x27BF, 0x27BF),
   (0x2934, 0x2935), (0x2B05, 0x2B07), (0x2B1B, 0x2B1C), (0x2B50, 0x2B50),
   (0x2B55, 0x2B55), (0x3030, 0x3030), (0x303D, 0x303D), (0x3297, 0x3297),
   (0x3299, 0x3299), (0x1F004, 0x1F004), (0x1F0CF, 0x1F0CF),
   (0x1F170, 0x1F171), (0x1F17E, 0x1F17F), (0x1F18E, 0x1F18E),
   (0x1F191, 0x1F19A), (0x1F1E6, 0x1F1FF), (0x1F201, 0x1F202),
   (0x1F21A, 0x1F21A), (0x1F22F, 0x1F22F), (0x1F232, 0x1F23A),
   (0x1F250, 0x1F251), (0x1F300, 0x1F321), (0x1F324, 0x1F393),
   (0x1F396, 0x1F397), (0x1F399, 0x1F39B), (0x1F39E, 0x1F3F0),
   (0x1F3F3, 0x1F3F5), (0x1F3F7, 0x1F4FD), (0x1F4FF, 0x1F53D),
   (0x1F549, 0x1F54E), (0x1F550, 0x1F567), (0x1F56F, 0x1F570),
   (0x1F573, 0x1F57A), (0x1F587, 0x1F587), (0x1F58A, 0x1F58D),
   (0x1F590, 0x1F590), (0x1F595, 0x1F596), (0x1F5A4, 0x1F5A5),
   (0x1F5A8, 0x1F5A8), (0x1F5B1, 0x1F5B2), (0x1F5BC, 0x1F5BC),
   (0x1F5C2, 0x1F5C4), (0x1F5D1, 0x1F5D3), (0x1F5DC, 0x1F5DE),
   (0x1F5E1, 0x1F5E1), (0x1F5E3, 0x1F5E3), (0x1F5E8, 0x1F5E8),
   (0x1F5EF, 0x1F5EF), (0x1F5F3, 0x1F5F3), (0x1F5FA, 0x1F64F),
   (0x1F680, 0x1F6C5), (0x1F6CB, 0x1F6D2), (0x1F6D5, 0x1F6D7),
   (0x1F6DC, 0x1F6E5), (0x1F6E9, 0x1F6E9), (0x1F6EB, 0x1F6EC),
   (0x1F6F0, 0x1F6F0), (0x1F6F3, 0x1F6FC), (0x1F7E0, 0x1F7EB),
   (0x1F7F0, 0x1F7F0), (0x1F90C, 0x1F93A), (0x1F93C, 0x1F945),
   (0x1F947, 0x1F9FF), (0x1FA70, 0x1FA7C), (0x1FA80, 0x1FA88),
   (0x1FA90, 0x1FABD), (0x1FABF, 0x1FAC5), (0x1FACE, 0x1FADB),
   (0x1FAE0, 0x1FAE8), (0x1FAF0, 0x1FAF8)]

/-- Membership in the character class
`[\p{Emoji_Presentation}\p{Emoji}‍]` of tts.js line 76. -/
def emojiClass (c : Char) : Bool :=
  decide (c.toNat = 0x200D) ||
  emojiRanges.any (fun r => decide (r.1 ≤ c.toNat) && decide (c.toNat ≤ r.2))

/-- tts.js `stripEmojis`:
`text.replace(/[\p{Emoji_Presentation}\p{Emoji}‍]+/gu, '').trim()`.
Replacing every maximal run of class characters with the empty string is
removal of every class character, after which `.trim()` is applied. -/
def stripEmojis (text : String) : String :=
  jsTrim ⟨text.data.filter (fun c => !(emojiClass c))⟩

/-! tts.js, the synthesis invocation.

A per-voice configuration record, as generated by setupPiper and read back
by generateTts via `require`.  The field names follow the JSON object built
at tts.js lines 391-398. -/

structure TtsConfigRec where
  provider : String
  voice : String
  language : String
  pythonPath : String
  modelPath : String
  configPath : String
deriving DecidableEq, Repr

/-- Typed rejection values produced by the tts.js promises:
`moduleNotFound p` is the error thrown by `require("./tts_configs/p.json")`
when no such config exists, and `piperExited c` is
`new Error("Piper exited with code c")`. -/
inductive JsError where
  | moduleNotFound (provider : String)
  | piperExited (code : Int)
deriving DecidableEq, Repr

/-- How the promise returned to a caller ends up: settled by `resolve`,
settled by `reject`, or never settled at all (a rejection that escapes an
async promise executor leaves the outer promise forever pending). -/
inductive Settle (α : Type) where
  | resolved (a : α)
  | rejected (e : JsError)
  | pending
deriving DecidableEq, Repr

/-- tts.js `generateTts(text, provider, outputFile)` (lines 34-73).
The `require` of `./tts_configs/provider.json` is the lookup `cfg provider`;
a missing file makes `require` throw, so the async function rejects before
any process is spawned (the `if (!configstt) return null` guard below the
`require` is unreachable).  With a config present the engine is spawned and
fed the text; the promise resolves with `outputFile` on exit code 0 and
rejects with `piperExited code` otherwise.  `exitCode` is the oracle for the
spawned process.  The returned `Bool` records whether a process was spawned. -/
def generateTts (cfg : String → Option TtsConfigRec) (exitCode : Int)
    (_text provider outputFile : String) : Settle String × Bool :=
  match cfg provider with
  | none => (.rejected (.moduleNotFound provider), false)
  | some _ =>
    if exitCode = 0 then (.resolved outputFile, true)
    else (.rejected (.piperExited exitCode), true)

/-- JS `a || b` for a possibly-absent string operand: `undefined` and `""`
are falsy. -/
def jsOr (v : Option String) (d : String) : String :=
  match v with
  | none => d
  | some s => if s = "" then d else s

/-- Everything observable about one `synthesizeWithPiper` call. -/
structure SynthResult where
  outcome : Settle String
  spawned : Bool
  providerUsed : String
  textSent : String
deriving DecidableEq, Repr

/-- tts.js `synthesizeWithPiper(text, voice)` (lines 79-94).  The body is
`new Promise(async (resolve, reject) => { const a = await generateTts(...);
resolve(a); })`: when `generateTts` rejects, the `await` throws inside the
async executor, `resolve` is never reached, and nothing ever settles the
outer promise — so every rejection of `generateTts` surfaces as `pending`
to the caller.  The text is cleaned with `stripEmojis` first and the voice
defaulted with `voice || "en_US-lessac-medium"`.  `outputWav` stands for
the fresh `uploads/<uuid>.wav` path. -/
def synthesizeWithPiper (cfg : String → Option TtsConfigRec) (exitCode : Int)
    (text : String) (voice : Option String) (outputWav : String) : SynthResult :=
  let cleanSentence := stripEmojis text
  let v := jsOr voice "en_US-lessac-medium"
  match generateTts cfg exitCode cleanSentence v outputWav with
  | (.resolved out, sp) =>
    { outcome := .resolved out, spawned := sp, providerUsed := v, textSent := cleanSentence }
  | (_, sp) =>
    { outcome := .pending, spawned := sp, providerUsed := v, textSent := cleanSentence }

/-! stt.js, process-wide state, `voskLoader`, and the server-side
provisioning of tts.js (`ensureVoskModelDownloaded`).

The mutable process state of both files is gathered into one record:
the extracted-model directory flag and the effect counters of
`ensureVoskModelDownloaded`, and the `let model = null` cache of stt.js.
A constructed `vosk.Model` handle is identified by the value of the
construction counter at the moment it was built. -/

structure ProcState where
  modelDirExists : Bool
  downloads : Nat
  extractions : Nat
  zipDeletions : Nat
  errorsLogged : Nat
  recModel : Option Nat
  constructions : Nat
  exited : Option Nat
deriving DecidableEq, Repr

/-- stt.js `voskLoader()` (lines 10-26 and the identical lines 73-89).
If the module-level `model` is already set it is returned with no other
effect.  Otherwise, when the model directory is missing the process exits
with status 1; when it is present a `vosk.Model` is constructed, cached,
and returned.

Modelled from the spec: `MODEL_PATH` is `./model/` followed by
`config.vaskmodel`, and `./config` is not part of src/; following the
layout of section 6 of the spec (`model/<recognition-model-name>/` is the
idempotency marker) the configured name is taken to equal the directory
name `vosk-model-en-us-0.22` that `ensureVoskModelDownloaded` checks, so a
single `modelDirExists` flag stands for both paths. -/
def voskLoader (s : ProcState) : Option Nat × ProcState :=
  match s.recModel with
  | some m => (some m, s)
  | none =>
    if s.modelDirExists then
      (some s.constructions,
        { s with recModel := some s.constructions, constructions := s.constructions + 1 })
    else
      (none, { s with exited := some 1 })

/-- Which step of the download-and-extract branch fails, when one does. -/
inductive ProvFail where
  | dlFail
  | extractFail
deriving DecidableEq, Repr

/-- tts.js `ensureVoskModelDownloaded()` (lines 261-294).
If the extraction directory exists the whole download branch is skipped and
only `voskLoader` and `loadTtsConfigs` run (neither downloads, extracts or
deletes anything; `loadTtsConfigs` touches no state tracked here).
Otherwise the archive is downloaded, extracted, and the zip deleted, after
which `voskLoader` and `loadTtsConfigs` run; any failure in that `try`
block is caught by the `catch (err)` which only logs
`Failed to set up Vosk model: ...` — the function then returns normally
and the process does not exit.  `outcome` is the oracle for the fallible
steps: `none` means they all succeed. -/
def ensureVoskModelDownloaded (outcome : Option ProvFail) (s : ProcState) : ProcState :=
  if s.modelDirExists then
    (voskLoader s).2
  else
    match outcome with
    | some .dlFail =>
      { s with downloads := s.downloads + 1, errorsLogged := s.errorsLogged + 1 }
    | some .extractFail =>
      { s with downloads := s.downloads + 1, extractions := s.extractions + 1,
               errorsLogged := s.errorsLogged + 1 }
    | none =>
      let s1 := { s with downloads := s.downloads + 1, extractions := s.extractions + 1,
                         zipDeletions := s.zipDeletions + 1, modelDirExists := true }
      (voskLoader s1).2

/-! tts.js server part, `setupPiper` — the per-voice download loop
(lines 371-383) and the config-generation loop (lines 386-401), with the
outer `try { ... } catch { ...; process.exit(1) }` around both. -/

/-- One entry of `VOICE_MODELS` (config/voice_dl.json): the descriptor
fields accessed in the source are `name`, `onnx` and `json`. -/
structure Desc where
  name : String
  onnx : String
  json : String
deriving DecidableEq, Repr

/-- tts.js `LANGUAGE_MAP` (lines 157-170). -/
def LANGUAGE_MAP : List (String × String) :=
  [("de_DE", "German (Germany)"),
   ("en_US", "English (United States)"),
   ("en_GB", "English (United Kingdom)"),
   ("es_ES", "Spanish (Spain)"),
   ("fr_FR", "French (France)"),
   ("sv_SE", "Swedish (Sweden)"),
   ("nl_NL", "Dutch (Netherlands)"),
   ("da_DK", "Danish (Denmark)"),
   ("it_IT", "Italian (Italy)"),
   ("ru_RU", "Russian (Russia)"),
   ("pt_BR", "Portuguese (Brazil)"),
   ("pl_PL", "Polish (Poland)")]

/-- The `provider` expression of tts.js lines 389-390:
`langCode.toLowerCase() + '_' + model.name.split('-')[1].split('-')[0]`
where `langCode = model.name.split('-')[0]`.  A name without any `-` makes
`split('-')[1]` be `undefined` and the subsequent `.split` throw, which the
`none` result stands for. -/
def providerOf (name : String) : Option String :=
  match splitOnChar '-' name.data with
  | lang :: second :: _ =>
    some (⟨lang.map Char.toLower⟩ ++ "_" ++ (⟨(splitOnChar '-' second).headD []⟩ : String))
  | _ => none

/-- The config object built for one voice model (tts.js lines 388-398).
`path.join('piper/models', x)` is the string `piper/models/x`. -/
def mkTtsConfig (pythonExe : String) (d : Desc) : Option TtsConfigRec :=
  match splitOnChar '-' d.name.data with
  | lang :: second :: _ =>
    some { provider := (⟨lang.map Char.toLower⟩ : String) ++ "_" ++
                       (⟨(splitOnChar '-' second).headD []⟩ : String),
           voice := d.name,
           language := ((LANGUAGE_MAP.lookup (⟨lang⟩ : String)).getD "Unknown Language"),
           pythonPath := pythonExe,
           modelPath := "piper/models/" ++ d.name ++ ".onnx",
           configPath := "piper/models/" ++ d.name ++ ".onnx.json" }
  | _ => none

/-- The voice-model download loop of `setupPiper` (lines 371-383):
each descriptor downloads its missing `.onnx` and `.onnx.json` files in
order; the two checks are independent.  `dl` is the network oracle
(keyed by URL) and `hasFile` the `fileExists` oracle.  The loop carries no
per-voice error handling, so the first rejected download aborts it: the
result is the list of names fully processed before the failure, together
with the first error if any. -/
def voiceDownloadLoop (dl : String → Except String Unit) (hasFile : String → Bool) :
    List Desc → List String × Option String
  | [] => ([], none)
  | d :: rest =>
    match (if hasFile ("piper/models/" ++ d.name ++ ".onnx") then Except.ok ()
           else dl d.onnx) with
    | .error e => ([], some e)
    | .ok _ =>
      match (if hasFile ("piper/models/" ++ d.name ++ ".onnx.json") then Except.ok ()
             else dl d.json) with
      | .error e => ([], some e)
      | .ok _ =>
        let r := voiceDownloadLoop dl hasFile rest
        (d.name :: r.1, r.2)

/-- The config-generation loop of `setupPiper` (lines 387-401): one config
file per descriptor, written in order; a malformed name throws (see
`mkTtsConfig`), keeping the configs already written and reaching the outer
catch (`some 1`). -/
def configLoop (pythonExe : String) : List Desc → List (String × TtsConfigRec) × Option Nat
  | [] => ([], none)
  | d :: rest =>
    match mkTtsConfig pythonExe d with
    | none => ([], some 1)
    | some c =>
      let r := configLoop pythonExe rest
      ((d.name, c) :: r.1, r.2)

/-- Everything observable about the voice phase of one `setupPiper` run. -/
structure VoicePhaseResult where
  configs : List (String × TtsConfigRec)
  processed : List String
  exitCode : Option Nat
deriving DecidableEq, Repr

/-- The voice phase of `setupPiper` (download loop, then config loop),
under the outer `try`/`catch` of lines 297-411: any error thrown in either
loop reaches the catch, which logs and calls `process.exit(1)`; the config
loop only starts after the whole download loop succeeded. -/
def setupPiperVoicePhase (dl : String → Except String Unit) (hasFile : String → Bool)
    (pythonExe : String) (models : List Desc) : VoicePhaseResult :=
  match voiceDownloadLoop dl hasFile models with
  | (ns, some _) => { configs := [], processed := ns, exitCode := some 1 }
  | (ns, none) =>
    let r := configLoop pythonExe models
    { configs := r.1, processed := ns, exitCode := r.2 }

/-! stt.js, `transcribeWithVosk` — the current variant of the function
(the one whose definition is in force after both copies in the file have
executed): stream the audio, and on the `end` event take
`finalResult()?.alternatives?.[0]?.text?.trim() ?? ""`, resolving with the
text when non-empty and with `false` (the no-speech sentinel) otherwise. -/

/-- One element of `finalResult.alternatives`; vosk may omit `text`. -/
structure AltRec where
  text : Option String
deriving DecidableEq, Repr

/-- The value a settled transcription promise carries: a non-empty string,
or the JS literal `false` used as the no-speech sentinel. -/
inductive TransResult where
  | text (t : String)
  | noSpeech
deriving DecidableEq, Repr

/-- Which terminal event the read stream delivers. -/
inductive StreamEvent where
  | ended
  | errored
deriving DecidableEq, Repr

/-- How the transcription promise settles (this variant settles on every
path of the `end` and `error` handlers). -/
inductive TransOutcome where
  | resolved (r : TransResult)
  | rejected
deriving DecidableEq, Repr

/-- The chain `finalResult?.alternatives?.[0]?.text?.trim() ?? ""`
(stt.js lines 108-109): an absent result object, absent or empty
`alternatives`, or absent `text` all collapse to `""`; otherwise the text
is trimmed. -/
def chainTrimmed (finalResult : Option (List AltRec)) : String :=
  match finalResult with
  | some (a :: _) =>
    match a.text with
    | some t => jsTrim t
    | none => ""
  | _ => ""

/-- stt.js `transcribeWithVosk(filePath)` (lines 91-130).  `ev` says
whether the stream ends or errors, `finalizeThrows` whether
`rec.finalResult()` throws, and `finalResult` is the recognizer output.
The returned `Bool` records that `rec.free()` ran.  On `end` with a
well-behaved recognizer the promise resolves with the trimmed text when it
is non-empty (`if (text)`) and with the `false` sentinel otherwise. -/
def transcribeWithVosk (ev : StreamEvent) (finalizeThrows : Bool)
    (finalResult : Option (List AltRec)) : TransOutcome × Bool :=
  match ev with
  | .errored => (.rejected, true)
  | .ended =>
    if finalizeThrows then (.rejected, true)
    else
      let text := chainTrimmed finalResult
      if text ≠ "" then (.resolved (.text text), true)
      else (.resolved .noSpeech, true)

/-! Concrete fixtures used by counterexamples and witnesses. -/

/-- The persisted config for the default voice, exactly as `setupPiper`
generates it for the descriptor named `en_US-lessac-medium`. -/
def cfgLessac : TtsConfigRec :=
  { provider := "en_us_lessac",
    voice := "en_US-lessac-medium",
    language := "English (United States)",
    pythonPath := "py",
    modelPath := "piper/models/en_US-lessac-medium.onnx",
    configPath := "piper/models/en_US-lessac-medium.onnx.json" }

/-- A config store holding exactly the default voice. -/
def cfgCatalog : String → Option TtsConfigRec :=
  fun n => if n = "en_US-lessac-medium" then some cfgLessac else none

/-- Voice descriptors for a three-voice catalog. -/
def d1 : Desc := ⟨"v1", "https://hf/v1.onnx", "https://hf/v1.json"⟩

/-- Second voice of the three-voice catalog; its model URL will 404. -/
def d2 : Desc := ⟨"v2", "https://hf/v2.onnx", "https://hf/v2.json"⟩

/-- Third voice of the three-voice catalog. -/
def d3 : Desc := ⟨"v3", "https://hf/v3.onnx", "https://hf/v3.json"⟩

/-- Network oracle: every URL succeeds except the model URL of `d2`,
which is rejected with the 404 message of `downloadFile`. -/
def dl404 : String → Except String Unit :=
  fun u => if u = "https://hf/v2.onnx" then
      .error ("Download skipped due to 404: " ++ u)
    else .ok ()

/-- File-system oracle: no voice asset is present yet. -/
def noFiles : String → Bool := fun _ => false

/-- Fresh process state: nothing downloaded, no model directory, no cached
model, process alive. -/
def s0 : ProcState := ⟨false, 0, 0, 0, 0, none, 0, none⟩

/-- An input text containing only an emoji between two words. -/
def emojiSample : String :=
  ⟨['h', 'i', ' ', Char.ofNat 0x1F600, ' ', 't', 'h', 'e', 'r', 'e']⟩

/-! Helper lemmas about the string primitives. -/

/-- Splitting a list without the separator yields the single segment. -/
theorem splitOnChar_no_sep (sep : Char) :
    ∀ (l : List Char), sep ∉ l → splitOnChar sep l = [l] := by
  intro l
  induction l with
  | nil => intro _; rfl
  | cons c rest ih =>
    intro h
    have hc : ¬(c = sep) := by
      intro hcs
      exact h (by simp [hcs])
    have hrest : sep ∉ rest := by
      intro hm
      exact h (List.mem_cons_of_mem _ hm)
    simp [splitOnChar, if_neg hc, ih hrest]

/-- Splitting peels off a separator-free prefix as the first segment. -/
theorem splitOnChar_append_cons (sep : Char) :
    ∀ (a b : List Char), sep ∉ a →
      splitOnChar sep (a ++ sep :: b) = a :: splitOnChar sep b := by
  intro a
  induction a with
  | nil =>
    intro b _
    simp [splitOnChar]
  | cons c a' ih =>
    intro b h
    have hc : ¬(c = sep) := by
      intro hcs
      exact h (by simp [hcs])
    have ha : sep ∉ a' := by
      intro hm
      exact h (List.mem_cons_of_mem _ hm)
    simp [splitOnChar, if_neg hc, ih b ha]

/-- Trimming only ever drops characters. -/
theorem jsTrimList_sublist (l : List Char) : (jsTrimList l).Sublist l := by
  have h2 : ((l.dropWhile jsWhitespace).reverse.dropWhile jsWhitespace).Sublist
      (l.dropWhile jsWhitespace).reverse := List.dropWhile_sublist _
  have h3 := h2.reverse
  rw [List.reverse_reverse] at h3
  exact h3.trans (List.dropWhile_sublist _)

/-! Claim theorems. -/

/-- C5 counterexample: the descriptor name `en_US-lessac-medium` yields
provider `en_us_lessac`, not the `en_us` the claim states. -/
theorem C5_provider_counterexample :
    providerOf "en_US-lessac-medium" = some "en_us_lessac" ∧
    providerOf "en_US-lessac-medium" ≠ some "en_us" :=
  ⟨by decide, by decide⟩

/-- C5 (amended): for every well-shaped name `s1-s2-s3` whose first two
dash-segments contain no dash, the provider is the lower-cased first
segment, then an underscore, then the second (voice) segment — so a name
`<lang>_<REGION>-<voice>-<quality>` yields
`<lang>_<region>_<voice>`, not `<lang>_<region>`. -/
theorem C5_provider_formula (s1 s2 s3 : String)
    (h1 : '-' ∉ s1.data) (h2 : '-' ∉ s2.data) :
    providerOf (s1 ++ "-" ++ s2 ++ "-" ++ s3) = some (jsToLower s1 ++ "_" ++ s2) := by
  unfold providerOf
  have hd : (s1 ++ "-" ++ s2 ++ "-" ++ s3).data
      = s1.data ++ '-' :: (s2.data ++ '-' :: s3.data) := by
    simp [String.data_append]
  rw [hd, splitOnChar_append_cons _ _ _ h1, splitOnChar_append_cons _ _ _ h2]
  simp [splitOnChar_no_sep _ _ h2, jsToLower]

/-- C5 witness: the formula applied to the concrete default voice name. -/
theorem C5_provider_formula_witness :
    providerOf ("en_US" ++ "-" ++ "lessac" ++ "-" ++ "medium")
      = some (jsToLower "en_US" ++ "_" ++ "lessac") :=
  C5_provider_formula "en_US" "lessac" "medium" (by decide) (by decide)

/-- C6: whenever the trimmed transcription text is empty, the promise of
`transcribeWithVosk` resolves with the `false` no-speech sentinel — a
normal success outcome, distinct from an empty-string success value — and
the call settles (and frees the recognizer). -/
theorem C6_no_speech_sentinel (fr : Option (List AltRec))
    (h : chainTrimmed fr = "") :
    transcribeWithVosk .ended false fr = (.resolved .noSpeech, true) ∧
    TransResult.noSpeech ≠ TransResult.text "" := by
  refine ⟨?_, by simp⟩
  simp [transcribeWithVosk, h]

/-- C6 witness: a result whose only alternative is whitespace-only. -/
theorem C6_no_speech_sentinel_witness :
    transcribeWithVosk .ended false (some [⟨some "   "⟩])
      = (.resolved .noSpeech, true) :=
  (C6_no_speech_sentinel (some [⟨some "   "⟩]) (by decide)).1

/-- C7 counterexample: the input consisting of a space and `hi` contains
no emoji and no zero-width joiner, yet `stripEmojis` does not preserve it —
the trailing `.trim()` removes the leading space. -/
theorem C7_strip_counterexample :
    (" hi" : String).data.all (fun c => !(emojiClass c)) = true ∧
    stripEmojis " hi" = "hi" ∧
    (" hi" : String) ≠ "hi" :=
  ⟨by decide, by decide, by decide⟩

/-- C7 (amended): the cleaning step removes every character of the regex
class (the Unicode Emoji and Emoji_Presentation properties together with
the zero-width joiner — a class that also contains the ASCII digits, the
hash sign and the asterisk) and then trims surrounding whitespace; it never
inserts characters.  In particular `hi 😀 there` becomes `hi  there`, and
`call 911` becomes `call`. -/
theorem C7_strip_class_and_trim :
    stripEmojis emojiSample = "hi  there" ∧
    stripEmojis "call 911" = "call" ∧
    ∀ s : String, (stripEmojis s).data.Sublist s.data ∧
      ∀ c ∈ (stripEmojis s).data, emojiClass c = false := by
  refine ⟨by decide, by decide, fun s => ⟨?_, ?_⟩⟩
  · exact (jsTrimList_sublist _).trans (List.filter_sublist _)
  · intro c hc
    have hc' : c ∈ s.data.filter (fun c => !(emojiClass c)) :=
      (jsTrimList_sublist _).subset hc
    simpa using (List.mem_filter.mp hc').2

/-- C7 witness: the letter a survives the cleaning of a text that also
contains an emoji, and it is indeed outside the emoji class. -/
theorem C7_strip_class_and_trim_witness :
    emojiClass 'a' = false :=
  (C7_strip_class_and_trim.2.2 (String.mk ['a', Char.ofNat 0x1F600])).2
    'a' (by decide)

/-- C3: at the failing input (engine exits 1), the inner `generateTts`
promise does reject with the typed exit-code failure, but the promise
`synthesizeWithPiper` returns to the caller never settles — the rejection
is lost inside the async promise executor; only the exit-0 half of the
claim holds, where the call resolves with the output path. -/
theorem C3_exit_code_paths :
    (synthesizeWithPiper cfgCatalog 0 "hello" (some "en_US-lessac-medium")
        "uploads/o.wav").outcome = .resolved "uploads/o.wav" ∧
    (synthesizeWithPiper cfgCatalog 1 "hello" (some "en_US-lessac-medium")
        "uploads/o.wav").outcome = .pending ∧
    (generateTts cfgCatalog 1 "hello" "en_US-lessac-medium" "uploads/o.wav").1
        = .rejected (.piperExited 1) :=
  ⟨by decide, by decide, by decide⟩

/-- C4 counterexample: synthesizing with a voice that has no persisted
config spawns no process, but the call does not fail with any typed error
at all — the returned promise stays pending forever. -/
theorem C4_unknown_voice_counterexample :
    (synthesizeWithPiper cfgCatalog 0 "hi" (some "nonexistent-voice")
        "uploads/o.wav").spawned = false ∧
    (synthesizeWithPiper cfgCatalog 0 "hi" (some "nonexistent-voice")
        "uploads/o.wav").outcome = .pending :=
  ⟨by decide, by decide⟩

/-- C4 (amended): for every voice whose config is absent, no engine
process is spawned — the `require` inside `generateTts` throws first,
rejecting that inner promise with a module-not-found error — but no
`UnknownVoice` failure reaches the caller: the rejection escapes the async
executor of `synthesizeWithPiper` and the returned promise never settles. -/
theorem C4_unknown_voice_pending (cfg : String → Option TtsConfigRec)
    (ec : Int) (t : String) (v : Option String) (out : String)
    (h : cfg (jsOr v "en_US-lessac-medium") = none) :
    (synthesizeWithPiper cfg ec t v out).spawned = false ∧
    (synthesizeWithPiper cfg ec t v out).outcome = .pending ∧
    (generateTts cfg ec (stripEmojis t) (jsOr v "en_US-lessac-medium") out).1
        = .rejected (.moduleNotFound (jsOr v "en_US-lessac-medium")) := by
  simp [synthesizeWithPiper, generateTts, h]

/-- C4 witness: the amended statement at the concrete unknown voice. -/
theorem C4_unknown_voice_pending_witness :
    (synthesizeWithPiper cfgCatalog 0 "hi" (some "nonexistent-voice")
        "uploads/w.wav").spawned = false ∧
    (synthesizeWithPiper cfgCatalog 0 "hi" (some "nonexistent-voice")
        "uploads/w.wav").outcome = .pending ∧
    (generateTts cfgCatalog 0 (stripEmojis "hi")
        (jsOr (some "nonexistent-voice") "en_US-lessac-medium") "uploads/w.wav").1
        = .rejected (.moduleNotFound
            (jsOr (some "nonexistent-voice") "en_US-lessac-medium")) :=
  C4_unknown_voice_pending cfgCatalog 0 "hi" (some "nonexistent-voice")
    "uploads/w.wav" (by decide)

/-- C10: when the requested voice is absent or the empty string,
`synthesizeWithPiper` silently falls back to `en_US-lessac-medium`: the
config looked up is the default one, a process is spawned whenever that
config exists, no unknown-voice failure is surfaced, and on exit code 0
the call resolves with the output path. -/
theorem C10_default_voice_fallback (cfg : String → Option TtsConfigRec)
    (ec : Int) (t out : String) (v : Option String) (c : TtsConfigRec)
    (hv : v = none ∨ v = some "") (hc : cfg "en_US-lessac-medium" = some c) :
    (synthesizeWithPiper cfg ec t v out).providerUsed = "en_US-lessac-medium" ∧
    (synthesizeWithPiper cfg ec t v out).spawned = true ∧
    (∀ e, (synthesizeWithPiper cfg ec t v out).outcome ≠ .rejected e) ∧
    (ec = 0 → (synthesizeWithPiper cfg ec t v out).outcome = .resolved out) := by
  rcases hv with h | h <;> subst h <;> by_cases hec : ec = 0 <;>
    simp [synthesizeWithPiper, generateTts, jsOr, hc, hec]

/-- C10 witness: an absent voice argument with the default config present
and a successful engine run. -/
theorem C10_default_voice_fallback_witness :
    (synthesizeWithPiper cfgCatalog 0 "hello" none "uploads/x.wav").providerUsed
        = "en_US-lessac-medium" ∧
    (synthesizeWithPiper cfgCatalog 0 "hello" none "uploads/x.wav").spawned = true ∧
    (synthesizeWithPiper cfgCatalog 0 "hello" none "uploads/x.wav").outcome
        = .resolved "uploads/x.wav" := by
  have h := C10_default_voice_fallback cfgCatalog 0 "hello" "uploads/x.wav" none
    cfgLessac (Or.inl rfl) (by decide)
  exact ⟨h.1, h.2.1, h.2.2.2 rfl⟩

/-- C1 counterexample: a three-voice catalog in which the model URL of the
second voice returns 404.  The run aborts with exit status 1, only the
first voice was processed (the third is never reached), and no config at
all is generated — not even for the voices whose assets were available. -/
theorem C1_abort_counterexample :
    (setupPiperVoicePhase dl404 noFiles "py" [d1, d2, d3]).exitCode = some 1 ∧
    (setupPiperVoicePhase dl404 noFiles "py" [d1, d2, d3]).configs = [] ∧
    (setupPiperVoicePhase dl404 noFiles "py" [d1, d2, d3]).processed = ["v1"] :=
  ⟨by decide, by decide, by decide⟩

/-- C1 (amended): a single failed descriptor download is not recovered:
the rejection escapes the per-voice loop into the outer catch of
`setupPiper`, which exits the process with status 1; descriptors after the
failing one are not processed and no `TtsConfig` records are produced,
because config generation only starts after every download succeeded. -/
theorem C1_download_failure_fatal (dl : String → Except String Unit)
    (hasFile : String → Bool) (py : String) (models : List Desc)
    (ns : List String) (e : String)
    (h : voiceDownloadLoop dl hasFile models = (ns, some e)) :
    setupPiperVoicePhase dl hasFile py models
      = { configs := [], processed := ns, exitCode := some 1 } := by
  unfold setupPiperVoicePhase
  rw [h]

/-- C1 witness: the amended statement at the concrete 404 catalog. -/
theorem C1_download_failure_fatal_witness :
    setupPiperVoicePhase dl404 noFiles "py" [d1, d2, d3]
      = { configs := [], processed := ["v1"], exitCode := some 1 } :=
  C1_download_failure_fatal dl404 noFiles "py" [d1, d2, d3] ["v1"]
    ("Download skipped due to 404: " ++ "https://hf/v2.onnx") (by decide)

/-- C2 counterexample: starting from a fresh state with no model
directory, a failing archive download leaves the process alive
(`exited = none`) with the error merely logged; the provisioning run
returns normally instead of exiting with a non-zero status. -/
theorem C2_swallowed_counterexample :
    (ensureVoskModelDownloaded (some .dlFail) s0).exited = none ∧
    (ensureVoskModelDownloaded (some .dlFail) s0).errorsLogged = 1 ∧
    (ensureVoskModelDownloaded (some .dlFail) s0).modelDirExists = false :=
  ⟨by decide, by decide, by decide⟩

/-- C2 (amended): for every state without the model directory, a download
or extraction failure is caught inside `ensureVoskModelDownloaded`: the
error is logged and the function returns normally — the process does not
exit, the model directory stays absent, and no recognition model is
loaded. -/
theorem C2_provisioning_failure_swallowed (s : ProcState) (f : ProvFail)
    (h : s.modelDirExists = false) :
    (ensureVoskModelDownloaded (some f) s).exited = s.exited ∧
    (ensureVoskModelDownloaded (some f) s).errorsLogged = s.errorsLogged + 1 ∧
    (ensureVoskModelDownloaded (some f) s).modelDirExists = false ∧
    (ensureVoskModelDownloaded (some f) s).recModel = s.recModel := by
  cases f <;> simp [ensureVoskModelDownloaded, h]

/-- C2 witness: the amended statement at the fresh state with a failed
download. -/
theorem C2_provisioning_failure_swallowed_witness :
    (ensureVoskModelDownloaded (some .dlFail) s0).exited = s0.exited ∧
    (ensureVoskModelDownloaded (some .dlFail) s0).errorsLogged
        = s0.errorsLogged + 1 ∧
    (ensureVoskModelDownloaded (some .dlFail) s0).modelDirExists = false ∧
    (ensureVoskModelDownloaded (some .dlFail) s0).recModel = s0.recModel :=
  C2_provisioning_failure_swallowed s0 .dlFail (by decide)

/-- C8: a successful `ensureVoskModelDownloaded` run leaves the extraction
directory in place, so an immediately following call — whatever its own
oracle would do — is a no-op returning the very same state, and the pair of
calls performs at most one download, one extraction and one zip deletion. -/
theorem C8_ensure_model_idempotent (s : ProcState) (o2 : Option ProvFail) :
    ensureVoskModelDownloaded o2 (ensureVoskModelDownloaded none s)
        = ensureVoskModelDownloaded none s ∧
    (ensureVoskModelDownloaded none s).downloads ≤ s.downloads + 1 ∧
    (ensureVoskModelDownloaded none s).extractions ≤ s.extractions + 1 ∧
    (ensureVoskModelDownloaded none s).zipDeletions ≤ s.zipDeletions + 1 := by
  rcases s with ⟨dir, dl, ex, zd, el, rm, cons, exd⟩
  cases dir <;> cases rm <;>
    refine ⟨?_, ?_, ?_, ?_⟩ <;>
      simp [ensureVoskModelDownloaded, voskLoader]

/-- C9: whenever a `voskLoader` call returns a handle, the cache of the
resulting state holds exactly that handle, at most one model construction
happened, the next call returns the same handle without touching the
state (so by iteration every later call does), and a call that hit the
cache changed nothing at all. -/
theorem C9_loadModel_cached_once (s s' : ProcState) (m : Nat)
    (h : voskLoader s = (some m, s')) :
    voskLoader s' = (some m, s') ∧
    s'.constructions ≤ s.constructions + 1 ∧
    s'.recModel = some m ∧
    (s.recModel = some m → s' = s) := by
  rcases s with ⟨dir, dl, ex, zd, el, rm, cons, exd⟩
  cases rm with
  | some k =>
    simp [voskLoader] at h
    obtain ⟨h1, h2⟩ := h
    subst h1
    subst h2
    simp [voskLoader]
  | none =>
    cases dir with
    | false => simp [voskLoader] at h
    | true =>
      simp [voskLoader] at h
      obtain ⟨h1, h2⟩ := h
      subst h1
      subst h2
      simp [voskLoader]

/-- C9 witness: a first load from a fresh state with the model directory
present, followed by the cached second call. -/
theorem C9_loadModel_cached_once_witness :
    voskLoader ⟨true, 0, 0, 0, 0, some 0, 1, none⟩
      = (some 0, ⟨true, 0, 0, 0, 0, some 0, 1, none⟩) :=
  (C9_loadModel_cached_once ⟨true, 0, 0, 0, 0, none, 0, none⟩
    ⟨true, 0, 0, 0, 0, some 0, 1, none⟩ 0 (by decide)).1

end ProxyAPINode
